import Mathlib

/-!
Verification of the PyKNyX group-communication stack against its
natural-language specification.

Each Lean definition below is a shallow embedding of one Python function or
class of the repository.  Bytearrays are `List Nat` (each entry a byte value);
in-place mutation of bytearrays is modelled with an explicit store mapping
buffer references (`Nat`) to their current contents.  Fallible Python code
(code that raises) is embedded as `Except String`.
-/

namespace T_GroupDataService

/-- Transport-layer packet type code for unnumbered (connectionless) data,
from `pknyx/stack/layer4/t_groupDataService.py`. -/
def UNNUMBERED_DATA : Nat := 0x00

/-- Transport-layer packet type code for numbered (connection-oriented) data,
recognized but not handled, from `pknyx/stack/layer4/t_groupDataService.py`. -/
def NUMBERED_DATA : Nat := 0x40

/-- Model of `buf[0] &= m` on a bytearray: mask the first byte, keep the rest. -/
def maskFirst (m : Nat) : List Nat → List Nat
  | [] => []
  | b :: rest => (b &&& m) :: rest

/-- Result of one `groupDataInd` call: the final buffer store, and the
reference of the buffer forwarded to the application listener (if any). -/
structure TIndResult where
  store : Nat → List Nat
  forwarded : Option Nat

/-- Embedding of `T_GroupDataService.groupDataInd(self, src, gad, priority,
tPDU)`.  `hasListener` is whether `self._tgdl` is set; `store` maps bytearray
references to contents and `tPDU` is the reference of the caller buffer.
The code reads `tPCI = tPDU[0] & 0xc0`; if it equals `UNNUMBERED_DATA` it
aliases `tSDU = tPDU`, executes `tSDU[0] &= 0x3f` in place and forwards the
(same) buffer to the listener; otherwise it falls through and forwards
nothing. -/
def groupDataInd (hasListener : Bool) (store : Nat → List Nat) (tPDU : Nat) :
    TIndResult :=
  if hasListener = true then
    let tPCI := (store tPDU).headD 0 &&& 0xc0
    if tPCI = UNNUMBERED_DATA then
      { store := fun r => if r = tPDU then maskFirst 0x3f (store r) else store r
        forwarded := some tPDU }
    else
      { store := store, forwarded := none }
  else
    { store := store, forwarded := none }

/-- Clearing the low six bits leaves nothing in the top-two-bit mask. -/
theorem and63_and192 (b : Nat) : (b &&& 0x3f) &&& 0xc0 = 0 := by
  rw [Nat.and_assoc, show (0x3f &&& 0xc0 : Nat) = 0 by decide]
  simp

end T_GroupDataService

namespace N_GroupDataService

/-- Modelled from the spec: `GroupAddress` (its module is not under src/; only
callers are).  A group address normalizes to a 16-bit value. -/
structure GroupAddress where
  raw : Nat
deriving DecidableEq

/-- Modelled from the spec: `GroupAddress.isNull` is true iff the value is 0. -/
def GroupAddress.isNull (g : GroupAddress) : Bool := g.raw == 0

/-- A cEMI destination address is either a group or an individual address. -/
inductive Address where
  | group (gad : GroupAddress)
  | individual (ia : Nat)
deriving DecidableEq

/-- The two cEMI message codes that `groupDataReq` chooses between
(`CEMILData.MC_LDATA_IND` versus `CEMILData.MC_LDATA_REQ`). -/
inductive MessageCode where
  | MC_LDATA_IND
  | MC_LDATA_REQ
deriving DecidableEq

/-- Modelled from the spec: `CEMILData` (its module is not under src/), the
data-link frame record: message code, priority, hop count, source and
destination address, and the length-prefixed network payload `npdu`.  The
source address is filled in later by the link data layer, hence a default. -/
structure CEMILData where
  messageCode : MessageCode
  destinationAddress : Address
  priority : Nat
  hopCount : Nat
  npdu : List Nat
  sourceAddress : Nat := 0
deriving DecidableEq

/-- Embedding of `N_GroupDataService.groupDataReq(self, gad, priority, nSDU)`
from `pyknyx/stack/layer3/n_groupDataService.py`.  `hopCount` is the
configured `_hopCount` of the service.  The code raises `N_GDSValueError` when `gad.isNull`;
otherwise it builds a `CEMILData` with message code `MC_LDATA_IND`, the given
destination, priority and hop count, and `nPDU[0] = len(nSDU) - 1` followed by
`nSDU` itself, then hands the frame to layer 2.  The two extra guards embed
Python bytearray semantics: `nPDU[0] = len(nSDU) - 1` raises unless
`0 <= len(nSDU) - 1 <= 255`. -/
def groupDataReq (hopCount : Nat) (gad : GroupAddress) (priority : Nat)
    (nSDU : List Nat) : Except String CEMILData :=
  if gad.isNull = true then
    Except.error "invalid Group Address"
  else if nSDU.length = 0 then
    Except.error "invalid byte value"
  else if 256 < nSDU.length then
    Except.error "invalid byte value"
  else
    Except.ok
      { messageCode := MessageCode.MC_LDATA_IND
        destinationAddress := Address.group gad
        priority := priority
        hopCount := hopCount
        npdu := (nSDU.length - 1) :: nSDU }

/-- Embedding of `N_GroupDataService.dataInd(self, cEMI)`: with a listener set,
a frame whose destination is a non-null group address is forwarded upward as
`(src, dest, priority, cEMI.npdu[1:])`; otherwise it is dropped. -/
def dataInd (hasListener : Bool) (cEMI : CEMILData) :
    Option (Nat × GroupAddress × Nat × List Nat) :=
  if hasListener = true then
    match cEMI.destinationAddress with
    | Address.group dest =>
      if dest.isNull = true then none
      else some (cEMI.sourceAddress, dest, cEMI.priority, cEMI.npdu.drop 1)
    | Address.individual _ => none
  else none

end N_GroupDataService

namespace DPTCore

/-- The Python values that can be passed as the `limits` argument of
`DPT.__init__` in `pknyx/core/dpt/dpt.py`: numbers (not iterable), strings
(iterable, yielding their characters), lists and tuples (iterable, yielding
their elements). -/
inductive PyVal where
  | pynum (n : Int)
  | pystr (s : String)
  | pylist (xs : List PyVal)
  | pytuple (xs : List PyVal)

/-- The Python builtin `tuple(x)` applied to a limits argument: numbers are not
iterable, so `tuple` raises `TypeError`; strings iterate into their
characters; lists and tuples into their elements. -/
def tupleOf : PyVal → Except String (List PyVal)
  | PyVal.pynum _ => Except.error "TypeError"
  | PyVal.pystr s => Except.ok (s.toList.map fun c => PyVal.pystr c.toString)
  | PyVal.pylist xs => Except.ok xs
  | PyVal.pytuple xs => Except.ok xs

/-- The constructed DPT object: id, description, limits tuple, optional
unit, mirroring the `_id`, `_desc`, `_limits`, `_unit` attributes exposed
through the `id`, `desc`, `limits`, `unit` properties. -/
structure DPTModel where
  id : String
  desc : String
  limits : List PyVal
  unit : Option String

/-- Embedding of `DPT.__init__(self, dptId, desc, limits, unit=None)`:
`self._limits = tuple(limits)` wrapped in `try/except TypeError`, which
re-raises `DPTValueError("invalid limits")`; on success the limits are stored
exactly as the coerced tuple. -/
def DPT_init (dptId : String) (desc : String) (limits : PyVal)
    (unit : Option String) : Except String DPTModel :=
  match tupleOf limits with
  | Except.error _ => Except.error "invalid limits"
  | Except.ok xs =>
    Except.ok { id := dptId, desc := desc, limits := xs, unit := unit }

end DPTCore

namespace StackStart

/-- Modelled from the spec: the `Flags` value type (its module is not under
src/); `Stack.start` consults only the `init` accessor of the listener flags. -/
structure Flags where
  init : Bool

/-- One listener (GroupObject) of a Group as seen by `Stack.start`:
`flags = none` models a listener whose `flags.init` access raises
`AttributeError` (caught and logged by `start`, which then moves on). -/
structure StListener where
  flags : Option Flags

/-- The inner loop of `Stack.start` over the listeners of one Group, counting the
read requests issued for that Group: on the first listener whose `flags.init`
is true, `group.read(...)` is called once and the loop `break`s; listeners
raising `AttributeError` are skipped. -/
def readsForGroup : List StListener → Nat
  | [] => 0
  | l :: rest =>
    match l.flags with
    | some f => if f.init then 1 else readsForGroup rest
    | none => readsForGroup rest

/-- Whether a Group has at least one listener whose flags include `init`. -/
def hasInitListener (ls : List StListener) : Bool :=
  ls.any fun l =>
    match l.flags with
    | some f => f.init
    | none => false

/-- Embedding of the read-request phase of `Stack.start` from
`pknyx/stack/stack.py`: iterate over all Groups, issuing per Group the reads
of `readsForGroup`; the result lists, per Group, how many read requests were
issued. -/
def stackStartReads (groups : List (List StListener)) : List Nat :=
  groups.map readsForGroup

end StackStart

namespace DatapointCore

/-- The DPT translator interface a `Datapoint` calls into
(`checkValue`/`valueToData`/`dataToValue`/`checkData`/`frameToData`), with
values and encoded data both abstracted as `Nat` and frames as byte lists.
The boolean checks model whether the corresponding Python check raises. -/
structure Xlator where
  checkValue : Nat → Bool
  valueToData : Nat → Nat
  dataToValue : Nat → Nat
  checkData : Nat → Bool
  frameToData : List Nat → Nat
  dataToFrame : Nat → List Nat

/-- The mutable state of a `Datapoint`: its cached encoded data `_data`
(`none` until something is cached). -/
structure DPState where
  data : Option Nat
deriving DecidableEq

/-- The observable notifications a Datapoint setter produces, in order: the
`_signalChanged.emit(oldValue, newValue)` signal and the
`_owner.notify(self, oldValue, newValue)` call. -/
inductive DPEvent where
  | signalChanged (oldValue newValue : Option Nat)
  | ownerNotify (oldValue newValue : Option Nat)
deriving DecidableEq

/-- Embedding of the `Datapoint.value` getter: `None` when no data is cached,
otherwise `self._dptXlator.dataToValue(self._data)`. -/
def getValue (x : Xlator) (st : DPState) : Option Nat :=
  match st.data with
  | none => none
  | some d => some (x.dataToValue d)

/-- Embedding of `Datapoint._setData(data)`: `checkData` may raise, then the
data is cached. -/
def setData (x : Xlator) (d : Nat) : Except String DPState :=
  if x.checkData d then Except.ok { data := some d }
  else Except.error "invalid data"

/-- Embedding of the `Datapoint.value` setter: read the old value, validate
the new one, encode and cache it, then emit the change signal with
`(oldValue, self.value)` and notify the owner with the same pair, in that
order. -/
def setValue (x : Xlator) (st : DPState) (v : Nat) :
    Except String (DPState × List DPEvent) :=
  let oldValue := getValue x st
  if x.checkValue v then
    match setData x (x.valueToData v) with
    | Except.error e => Except.error e
    | Except.ok st2 =>
      Except.ok (st2, [DPEvent.signalChanged oldValue (getValue x st2),
                       DPEvent.ownerNotify oldValue (getValue x st2)])
  else Except.error "invalid value"

/-- Embedding of the `Datapoint.frame` setter: read the old value, decode the
frame via `frameToData`, cache the result, and notify only the owner with
`(oldValue, self.value)` — no change signal is emitted. -/
def setFrame (x : Xlator) (st : DPState) (f : List Nat) :
    Except String (DPState × List DPEvent) :=
  let oldValue := getValue x st
  match setData x (x.frameToData f) with
  | Except.error e => Except.error e
  | Except.ok st2 =>
    Except.ok (st2, [DPEvent.ownerNotify oldValue (getValue x st2)])

/-- Embedding of the data-relevant part of `Datapoint.__init__`: `_data` is
initialized to `None`; when a default value is given, `_setValue(default)`
runs (validate, encode, cache — no notifications). -/
def initDatapoint (x : Xlator) (default : Option Nat) : Except String DPState :=
  match default with
  | none => Except.ok { data := none }
  | some v =>
    if x.checkValue v then setData x (x.valueToData v)
    else Except.error "invalid value"

end DatapointCore

namespace DPTXlators

/-- Modelled from the spec: the DPT translator contract of §4.7 (the
translator modules are not under src/; only the test table of the boolean
translator is).  A translator converts between a semantic value (`Int`), a
fixed-width encoded datum (`Nat`) and a wire frame (byte list), with a legal
value domain and valid data/frame sets. -/
structure XlatorSpec where
  validValue : Int → Bool
  validData : Nat → Bool
  valueToData : Int → Nat
  dataToValue : Nat → Int
  dataToFrame : Nat → List Nat
  frameToData : List Nat → Nat

/-- Modelled from the spec: the boolean translator (DPT 1.xxx), matching the
test table of `tests/core/dptXlator/dptXlatorBoolean.py`: value 0 ↔ data 0x00
↔ frame 0x00, value 1 ↔ data 0x01 ↔ frame 0x01 (enumerated mapping). -/
def xlatorBoolean : XlatorSpec where
  validValue := fun v => v == 0 || v == 1
  validData := fun d => decide (d < 2)
  valueToData := fun v => v.toNat
  dataToValue := fun d => (d : Int)
  dataToFrame := fun d => [d]
  frameToData := fun f => f.headD 0

/-- Modelled from the spec: an 8-bit twos-complement translator (the
twos-complement numeric rule of §4.7), legal values −128..127 encoded in
one byte. -/
def xlatorSigned8 : XlatorSpec where
  validValue := fun v => decide (-128 ≤ v ∧ v < 128)
  validData := fun d => decide (d < 256)
  valueToData := fun v => (v % 256).toNat
  dataToValue := fun d => if d < 128 then (d : Int) else (d : Int) - 256
  dataToFrame := fun d => [d]
  frameToData := fun f => f.headD 0

/-- Modelled from the spec: a 16-bit unsigned translator (the "linear
scaling" numeric rule of §4.7 with unit scale), legal values 0..65535 encoded
big-endian in two bytes. -/
def xlatorUInt16 : XlatorSpec where
  validValue := fun v => decide (0 ≤ v ∧ v < 65536)
  validData := fun d => decide (d < 65536)
  valueToData := fun v => v.toNat
  dataToValue := fun d => (d : Int)
  dataToFrame := fun d => [d / 256, d % 256]
  frameToData := fun f => f.headD 0 * 256 + (f.drop 1).headD 0

/-- Modelled from the spec: the factory registry of translators, one per
wire format family. -/
def xlatorRegistry : List XlatorSpec :=
  [xlatorBoolean, xlatorSigned8, xlatorUInt16]

end DPTXlators

open T_GroupDataService N_GroupDataService DPTCore StackStart DatapointCore DPTXlators

/-- Claim C2: with a listener set, `groupDataInd` forwards the payload to the
application listener iff the top two bits of tPDU byte 0 equal the
unnumbered-data code 0x00; the forwarded payload has those two bits cleared;
any other packet-type code in those bits leaves the store untouched and
forwards nothing, including the numbered-data code 0x40. -/
theorem claimC2_groupDataInd_unnumbered_filter (store : Nat → List Nat)
    (tPDU : Nat) (hne : store tPDU ≠ []) :
    ((groupDataInd true store tPDU).forwarded.isSome = true ↔
      (store tPDU).headD 0 &&& 0xc0 = UNNUMBERED_DATA) ∧
    (∀ r, (groupDataInd true store tPDU).forwarded = some r →
      ((groupDataInd true store tPDU).store r).headD 0 &&& 0xc0 = 0) ∧
    ((store tPDU).headD 0 &&& 0xc0 ≠ UNNUMBERED_DATA →
      (groupDataInd true store tPDU).forwarded = none ∧
      (groupDataInd true store tPDU).store = store) ∧
    ((store tPDU).headD 0 &&& 0xc0 = NUMBERED_DATA →
      (groupDataInd true store tPDU).forwarded = none) := by
  obtain ⟨b, rest, hbr⟩ := List.exists_cons_of_ne_nil hne
  unfold groupDataInd
  rw [if_pos rfl]
  by_cases h : (store tPDU).headD 0 &&& 0xc0 = UNNUMBERED_DATA
  · rw [if_pos h]
    refine ⟨⟨fun _ => h, fun _ => rfl⟩, ?_, ?_, ?_⟩
    · intro r hr
      simp only [Option.some.injEq] at hr
      subst hr
      simp only [if_pos rfl]
      rw [hbr]
      exact and63_and192 b
    · intro hc
      exact absurd h hc
    · intro hn
      rw [h] at hn
      exact absurd hn (by decide)
  · rw [if_neg h]
    refine ⟨⟨fun hs => absurd hs (by simp), fun hh => absurd hh h⟩, ?_,
      fun _ => ⟨rfl, rfl⟩, fun _ => rfl⟩
    intro r hr
    simp at hr

/-- Witness for claim C2 at a concrete store: byte 0 is 0x81, whose
packet-type bits are 0x80 (neither unnumbered nor numbered), so nothing is
forwarded. -/
theorem claimC2_witness :
    (groupDataInd true (fun _ => [0x81, 0x2a]) 7).forwarded = none :=
  ((claimC2_groupDataInd_unnumbered_filter (fun _ => [0x81, 0x2a]) 7
    (by decide)).2.2.1 (by decide)).1

/-- Claim C10: for an accepted unnumbered indication, `groupDataInd` forwards
the very buffer reference it received: the listener gets the caller tPDU
reference, whose stored contents after the call are the original bytes with
byte 0 masked by 0x3f in place; no other buffer changes. -/
theorem claimC10_groupDataInd_in_place (store : Nat → List Nat) (tPDU : Nat)
    (hne : store tPDU ≠ [])
    (hacc : (store tPDU).headD 0 &&& 0xc0 = UNNUMBERED_DATA) :
    (groupDataInd true store tPDU).forwarded = some tPDU ∧
    (groupDataInd true store tPDU).store tPDU = maskFirst 0x3f (store tPDU) ∧
    ∀ r, r ≠ tPDU → (groupDataInd true store tPDU).store r = store r := by
  unfold groupDataInd
  rw [if_pos rfl, if_pos hacc]
  refine ⟨rfl, by simp, ?_⟩
  intro r hr
  simp only [if_neg hr]

/-- Witness for claim C10 at a concrete store: byte 0 is 0x2a (unnumbered),
the caller buffer is forwarded and masked in place. -/
theorem claimC10_witness :
    (groupDataInd true (fun _ => [0x2a, 0x05]) 3).forwarded = some 3 ∧
    (groupDataInd true (fun _ => [0x2a, 0x05]) 3).store 3 =
      maskFirst 0x3f [0x2a, 0x05] := by
  have h := claimC10_groupDataInd_in_place (fun _ => [0x2a, 0x05]) 3
    (by decide) (by decide)
  exact ⟨h.1, h.2.1⟩

/-- Claim C3: `groupDataReq` raises the address error exactly on a null group
address: for `gad.isNull` it returns the address error (so no frame is built
and nothing is delegated to layer 2), and for a non-null `gad` it can never
return the address error. -/
theorem claimC3_groupDataReq_null_address (hop : Nat) (gad : GroupAddress)
    (prio : Nat) (nSDU : List Nat) :
    (gad.isNull = true →
      groupDataReq hop gad prio nSDU = Except.error "invalid Group Address") ∧
    (gad.isNull = false →
      groupDataReq hop gad prio nSDU ≠ Except.error "invalid Group Address") := by
  constructor
  · intro h
    unfold groupDataReq
    rw [if_pos h]
  · intro h
    unfold groupDataReq
    rw [if_neg (by rw [h]; exact Bool.false_ne_true)]
    by_cases h0 : nSDU.length = 0
    · rw [if_pos h0]
      intro hc
      exact absurd (Except.error.inj hc) (by decide)
    · rw [if_neg h0]
      by_cases h1 : 256 < nSDU.length
      · rw [if_pos h1]
        intro hc
        exact absurd (Except.error.inj hc) (by decide)
      · rw [if_neg h1]
        intro hc
        exact Except.noConfusion hc

/-- Witness for claim C3: the null address 0/0/0 is rejected with the address
error, the non-null address 1/0/1 (raw 2049) is not. -/
theorem claimC3_witness :
    groupDataReq 6 ⟨0⟩ 3 [0x80] = Except.error "invalid Group Address" ∧
    groupDataReq 6 ⟨2049⟩ 3 [0x80] ≠ Except.error "invalid Group Address" :=
  ⟨(claimC3_groupDataReq_null_address 6 ⟨0⟩ 3 [0x80]).1 rfl,
   (claimC3_groupDataReq_null_address 6 ⟨2049⟩ 3 [0x80]).2 rfl⟩

/-- Claim C4: every frame `groupDataReq` successfully builds carries the
frame-indication message code `MC_LDATA_IND`, never the request code
`MC_LDATA_REQ`, regardless of destination, priority or payload. -/
theorem claimC4_groupDataReq_indication_code (hop : Nat) (gad : GroupAddress)
    (prio : Nat) (nSDU : List Nat) (cEMI : CEMILData)
    (h : groupDataReq hop gad prio nSDU = Except.ok cEMI) :
    cEMI.messageCode = MessageCode.MC_LDATA_IND ∧
    MessageCode.MC_LDATA_IND ≠ MessageCode.MC_LDATA_REQ := by
  unfold groupDataReq at h
  split_ifs at h with h1 h2 h3
  obtain rfl : _ = cEMI := Except.ok.inj h
  exact ⟨rfl, by decide⟩

/-- Witness for claim C4 at a concrete request. -/
theorem claimC4_witness :
    (CEMILData.mk MessageCode.MC_LDATA_IND (Address.group ⟨2049⟩) 3 6
      [0, 0x80] 0).messageCode = MessageCode.MC_LDATA_IND ∧
    MessageCode.MC_LDATA_IND ≠ MessageCode.MC_LDATA_REQ :=
  claimC4_groupDataReq_indication_code 6 ⟨2049⟩ 3 [0x80] _ rfl

/-- Claim C5: a successful `groupDataReq` places `[len(nSDU) - 1] ++ nSDU`
into the frame as the network payload, so the encoded length byte is the
payload length minus one; symmetrically, `dataInd` recovers the network
payload of any accepted inbound frame by stripping exactly the first byte of
its npdu. -/
theorem claimC5_npdu_length_prefix (hop : Nat) (gad : GroupAddress)
    (prio : Nat) (nSDU : List Nat) (cEMI : CEMILData)
    (h : groupDataReq hop gad prio nSDU = Except.ok cEMI) :
    cEMI.npdu = (nSDU.length - 1) :: nSDU ∧
    cEMI.npdu.headD 0 + 1 = nSDU.length ∧
    (∀ (c : CEMILData) (g : GroupAddress),
      c.destinationAddress = Address.group g → g.isNull = false →
      dataInd true c = some (c.sourceAddress, g, c.priority, c.npdu.drop 1)) := by
  unfold groupDataReq at h
  split_ifs at h with h1 h2 h3
  obtain rfl : _ = cEMI := Except.ok.inj h
  refine ⟨rfl, by simp; omega, ?_⟩
  intro c g hdest hnull
  unfold dataInd
  rw [if_pos rfl, hdest]
  simp only [hnull]
  rfl

/-- Witness for claim C5 at a concrete request and the frame it builds. -/
theorem claimC5_witness :
    (CEMILData.mk MessageCode.MC_LDATA_IND (Address.group ⟨2049⟩) 3 6
      [0, 0x80] 0).npdu = [0, 0x80] ∧
    dataInd true
      (CEMILData.mk MessageCode.MC_LDATA_IND (Address.group ⟨2049⟩) 3 6
        [0, 0x80] 0) = some (0, ⟨2049⟩, 3, [0x80]) := by
  have h := claimC5_npdu_length_prefix 6 ⟨2049⟩ 3 [0x80] _ rfl
  exact ⟨h.1, h.2.2 _ ⟨2049⟩ rfl rfl⟩

/-- Claim C6: `DPT.__init__` fails with the value error exactly when the
limits argument does not coerce through `tuple(...)` (in particular for a
bare number such as −273), and when it does coerce, construction succeeds
with the coerced elements exposed unchanged as the limits tuple. -/
theorem claimC6_dpt_limits_validation (dptId desc : String) (limits : PyVal)
    (u : Option String) :
    (∀ e, tupleOf limits = Except.error e →
      DPT_init dptId desc limits u = Except.error "invalid limits") ∧
    (∀ xs, tupleOf limits = Except.ok xs →
      DPT_init dptId desc limits u =
        Except.ok { id := dptId, desc := desc, limits := xs, unit := u }) ∧
    (∀ n : Int, limits = PyVal.pynum n →
      DPT_init dptId desc limits u = Except.error "invalid limits") := by
  refine ⟨?_, ?_, ?_⟩
  · intro e he
    unfold DPT_init
    rw [he]
  · intro xs hxs
    unfold DPT_init
    rw [hxs]
  · intro n hn
    subst hn
    rfl

/-- Witness for claim C6: `DPT("9.001", "Temperature", -273)` raises the
value error; a proper two-element limits tuple is stored unchanged. -/
theorem claimC6_witness :
    DPT_init "9.001" "Temperature" (PyVal.pynum (-273)) none =
      Except.error "invalid limits" ∧
    DPT_init "1.001" "Switch"
      (PyVal.pytuple [PyVal.pystr "Off", PyVal.pystr "On"]) none =
      Except.ok { id := "1.001", desc := "Switch",
                  limits := [PyVal.pystr "Off", PyVal.pystr "On"],
                  unit := none } :=
  ⟨(claimC6_dpt_limits_validation "9.001" "Temperature"
      (PyVal.pynum (-273)) none).1 "TypeError" rfl,
   (claimC6_dpt_limits_validation "1.001" "Switch"
      (PyVal.pytuple [PyVal.pystr "Off", PyVal.pystr "On"]) none).2.1
      [PyVal.pystr "Off", PyVal.pystr "On"] rfl⟩

/-- The read count of one Group during `Stack.start` is 1 exactly when the
flags of some listener include `init`, else 0. -/
theorem readsForGroup_eq_ite (ls : List StListener) :
    readsForGroup ls = if hasInitListener ls then 1 else 0 := by
  induction ls with
  | nil => rfl
  | cons l rest ih =>
    cases hf : l.flags with
    | none =>
      simp only [readsForGroup, hasInitListener, List.any_cons, hf, ih,
        hasInitListener, Bool.false_or]
    | some f =>
      cases hi : f.init with
      | true =>
        simp only [readsForGroup, hasInitListener, List.any_cons, hf, hi,
          Bool.true_or, if_pos, if_true]
      | false =>
        simp [readsForGroup, hasInitListener, hf, hi, ih]

/-- Claim C7: `Stack.start` issues exactly one read request per Group that
has at least one listener whose flags include `init`, and none for a Group
with no init-flagged listener; extra init-flagged listeners in the same
Group never cause a second read. -/
theorem claimC7_stack_start_reads (groups : List (List StListener)) :
    stackStartReads groups =
      groups.map (fun ls => if hasInitListener ls then 1 else 0) := by
  unfold stackStartReads
  exact List.map_congr_left fun ls _ => readsForGroup_eq_ite ls

/-- Claim C8: the frame setter caches the decoded data and notifies only the
owner with `(oldValue, newValue)` — it never emits the change signal — while
the ordinary value setter emits the change signal with `(old, new)` and then
notifies the owner. -/
theorem claimC8_frame_setter_owner_only (x : Xlator) (st : DPState)
    (f : List Nat) (st2 : DPState) (evs : List DPEvent)
    (h : setFrame x st f = Except.ok (st2, evs)) :
    st2.data = some (x.frameToData f) ∧
    evs = [DPEvent.ownerNotify (getValue x st)
            (some (x.dataToValue (x.frameToData f)))] ∧
    (∀ o n, DPEvent.signalChanged o n ∉ evs) ∧
    (∀ v st3 evs3, setValue x st v = Except.ok (st3, evs3) →
      evs3 = [DPEvent.signalChanged (getValue x st)
                (some (x.dataToValue (x.valueToData v))),
              DPEvent.ownerNotify (getValue x st)
                (some (x.dataToValue (x.valueToData v)))]) := by
  unfold setFrame setData at h
  split_ifs at h with hcd
  obtain ⟨rfl, rfl⟩ : _ ∧ _ := Prod.mk.injEq .. ▸ Except.ok.inj h
  refine ⟨rfl, rfl, by simp, ?_⟩
  intro v st3 evs3 hv
  unfold setValue setData at hv
  split_ifs at hv with hcv hcd2
  obtain ⟨rfl, rfl⟩ : _ ∧ _ := Prod.mk.injEq .. ▸ Except.ok.inj hv
  rfl

/-- A concrete translator used to witness claim C8: identity conversions that
accept all values and data. -/
def xlatorW : Xlator :=
  ⟨fun _ => true, id, id, fun _ => true, fun fr => fr.headD 0, fun d => [d]⟩

/-- Witness for claim C8: setting from the frame `[1]` on an empty Datapoint
caches data 1 and produces exactly one owner notification. -/
theorem claimC8_witness :
    setFrame xlatorW ⟨none⟩ [1] =
      Except.ok (⟨some 1⟩, [DPEvent.ownerNotify none (some 1)]) ∧
    [DPEvent.ownerNotify none (some 1)] =
      [DPEvent.ownerNotify (getValue xlatorW ⟨none⟩)
        (some (xlatorW.dataToValue (xlatorW.frameToData [1])))] :=
  ⟨rfl, (claimC8_frame_setter_owner_only xlatorW ⟨none⟩ [1] ⟨some 1⟩
    [DPEvent.ownerNotify none (some 1)] rfl).2.1⟩

/-- Claim C9: a Datapoint constructed without a default caches no data, and
reading `value` then yields `none` for every possible translator — in
particular without invoking `dataToValue`; once data `d` is cached, `value`
is `dataToValue d`. -/
theorem claimC9_value_before_data (x : Xlator) (d : Nat) :
    initDatapoint x none = Except.ok ⟨none⟩ ∧
    (∀ x2 : Xlator, getValue x2 ⟨none⟩ = none) ∧
    getValue x ⟨some d⟩ = some (x.dataToValue d) :=
  ⟨rfl, fun _ => rfl, rfl⟩

/-- Claim C1: for every translator of the registry, `dataToValue ∘
valueToData` is the identity on the legal value domain and `frameToData ∘
dataToFrame` is the identity on valid encoded data. -/
theorem claimC1_translator_roundtrips (t : XlatorSpec)
    (ht : t ∈ xlatorRegistry) :
    (∀ v : Int, t.validValue v = true → t.dataToValue (t.valueToData v) = v) ∧
    (∀ d : Nat, t.validData d = true → t.frameToData (t.dataToFrame d) = d) := by
  simp only [xlatorRegistry, List.mem_cons, List.mem_singleton,
    List.not_mem_nil, or_false] at ht
  rcases ht with h | h | h <;> subst h
  · constructor
    · intro v hv
      simp only [xlatorBoolean, Bool.or_eq_true, beq_iff_eq] at hv ⊢
      omega
    · intro d _
      rfl
  · constructor
    · intro v hv
      simp only [xlatorSigned8, decide_eq_true_eq] at hv ⊢
      split_ifs <;> omega
    · intro d _
      rfl
  · constructor
    · intro v hv
      simp only [xlatorUInt16, decide_eq_true_eq] at hv ⊢
      omega
    · intro d hd
      simp only [xlatorUInt16, decide_eq_true_eq] at hd ⊢
      simp only [List.headD, List.drop]
      omega

/-- Witness for claim C1 at the boolean translator on the legal value 1 and
the valid datum 1 of its test table. -/
theorem claimC1_witness :
    xlatorBoolean ∈ xlatorRegistry ∧
    xlatorBoolean.validValue 1 = true ∧
    xlatorBoolean.dataToValue (xlatorBoolean.valueToData 1) = 1 ∧
    xlatorBoolean.validData 1 = true ∧
    xlatorBoolean.frameToData (xlatorBoolean.dataToFrame 1) = 1 := by
  have hm : xlatorBoolean ∈ xlatorRegistry := by
    simp [xlatorRegistry]
  exact ⟨hm, by decide,
    (claimC1_translator_roundtrips xlatorBoolean hm).1 1 (by decide),
    by decide,
    (claimC1_translator_roundtrips xlatorBoolean hm).2 1 (by decide)⟩
